import Mathlib

/-
Verification of the DateRangeInput reconciliation state machine
(src/packages/datetime/src/dateRangeInput.tsx).

Shallow embedding notes:
- A moment.js value is modelled by `Moment`: `nullMoment` is moment(null)
  (invalid, with parsingFlags().nullInput = true), `invalidMoment` is a
  failed parse of a non-null string (invalid, nullInput = false), and
  `validMoment d` is a valid moment at day granularity, with `d : Int`
  the day index. A JavaScript `Date` is likewise modelled by its day
  index `Int`; `null`/`undefined` dates are `Option`.
- Parsing a string under the configured format, moment(text, format), is
  an external library call; it is modelled by the configuration field
  `mparse : String → Option Int` (none = unparseable), injected into
  `Moment` by `momentOfParse`. moment(string, format) never has
  nullInput, which the Option codomain encodes structurally. Formatting
  a valid day under the format pattern is the field `fmt : Int → String`.
- Component state fields keep their source names. A state field that can
  hold JavaScript null is an `Option`.
- The generic handlers of the source select the start or end bookkeeping
  fields by string keys; here the key triple is an `Endpoint` tag and
  the field accessors below.
- The source contains TODO stubs where onError / onChange would be
  invoked; accordingly the blur handler returns the (always empty) list
  of emitted callbacks alongside the new state.
-/

inductive Moment where
  | nullMoment
  | invalidMoment
  | validMoment (day : Int)
deriving DecidableEq, Repr

/-- Injection of a parse result, moment(text, format), into `Moment`. -/
def momentOfParse : Option Int → Moment
  | none => Moment.invalidMoment
  | some d => Moment.validMoment d

/-- Moment.isValid. -/
def isValidMoment : Moment → Bool
  | Moment.validMoment _ => true
  | _ => false

/-- Configuration: the props consulted by the state machine. `propsValue`
is `this.props.value` (none = undefined = uncontrolled mode). -/
structure Config where
  minDate : Int
  maxDate : Int
  invalidDateMessage : String
  outOfRangeMessage : String
  openOnFocus : Bool
  propsValue : Option (Option Int × Option Int)
  mparse : String → Option Int
  fmt : Int → String

/-- Moment.format(this.props.format); an invalid moment formats to the
literal string "Invalid date" in moment.js. -/
def momentFormat (cfg : Config) : Moment → String
  | Moment.validMoment d => cfg.fmt d
  | _ => "Invalid date"

/-- IDateRangeInputState. -/
structure State where
  isOpen : Bool
  isStartDateInputFocused : Bool
  startDateValue : Option Moment
  startDateValueString : Option String
  isEndDateInputFocused : Bool
  endDateValue : Option Moment
  endDateValueString : Option String
deriving DecidableEq, Repr

/-- Tag replacing the string-keyed field selection of the source. -/
inductive Endpoint where
  | startEP
  | endEP
deriving DecidableEq, Repr

def getValue : Endpoint → State → Option Moment
  | Endpoint.startEP, s => s.startDateValue
  | Endpoint.endEP, s => s.endDateValue

def getValueString : Endpoint → State → Option String
  | Endpoint.startEP, s => s.startDateValueString
  | Endpoint.endEP, s => s.endDateValueString

def isFocused : Endpoint → State → Bool
  | Endpoint.startEP, s => s.isStartDateInputFocused
  | Endpoint.endEP, s => s.isEndDateInputFocused

def setValue : Endpoint → Option Moment → State → State
  | Endpoint.startEP, v, s => { s with startDateValue := v }
  | Endpoint.endEP, v, s => { s with endDateValue := v }

def setValueString : Endpoint → Option String → State → State
  | Endpoint.startEP, v, s => { s with startDateValueString := v }
  | Endpoint.endEP, v, s => { s with endDateValueString := v }

def setFocused : Endpoint → Bool → State → State
  | Endpoint.startEP, b, s => { s with isStartDateInputFocused := b }
  | Endpoint.endEP, b, s => { s with isEndDateInputFocused := b }

/-- DateRangeInput.isNull: value == null || value.parsingFlags().nullInput. -/
def isNull : Option Moment → Bool
  | none => true
  | some Moment.nullMoment => true
  | _ => false

/-- DateRangeInput.dateIsInRange: value != null &&
value.isBetween(minDate, maxDate, "day", brackets-inclusive). Comparison
with an invalid moment is false in moment.js. -/
def dateIsInRange (cfg : Config) : Option Moment → Bool
  | some (Moment.validMoment d) => decide (cfg.minDate ≤ d) && decide (d ≤ cfg.maxDate)
  | _ => false

/-- DateRangeInput.isDateValidAndInRange. -/
def isDateValidAndInRange (cfg : Config) : Option Moment → Bool
  | none => false
  | some m => isValidMoment m && dateIsInRange cfg (some m)

/-- Value.isValid() lifted to the nullable argument of
getDateStringForDisplay; the isNull guard precedes every use. -/
def optIsValid : Option Moment → Bool
  | some m => isValidMoment m
  | none => false

/-- Value.format(format) lifted to the nullable argument of
getDateStringForDisplay; only reached on a valid moment. -/
def optFormat (cfg : Config) : Option Moment → String
  | some m => momentFormat cfg m
  | none => "Invalid date"

/-- DateRangeInput.getDateStringForDisplay. -/
def getDateStringForDisplay (cfg : Config) (value : Option Moment) : String :=
  if isNull value then ""
  else if !(optIsValid value) then cfg.invalidDateMessage
  else if !(dateIsInRange cfg value) then cfg.outOfRangeMessage
  else optFormat cfg value

/-- DateRangeInput.fromMomentToDate: undefined on null input; a valid
moment yields the Date at the same day. (An invalid moment would yield
an invalid Date; the only caller guards with isDateValidAndInRange.) -/
def fromMomentToDate : Option Moment → Option Int
  | some (Moment.validMoment d) => some d
  | _ => none

/-- DateRangeInput.fromDateToMoment: moment(null) on null input, else a
valid moment at the same day. -/
def fromDateToMoment : Option Int → Moment
  | none => Moment.nullMoment
  | some d => Moment.validMoment d

/-- DateRangeInput.getCurrentDateRange: the range handed to the
DateRangePicker collaborator. -/
def getCurrentDateRange (cfg : Config) (s : State) : Option Int × Option Int :=
  (if isDateValidAndInRange cfg s.startDateValue then fromMomentToDate s.startDateValue else none,
   if isDateValidAndInRange cfg s.endDateValue then fromMomentToDate s.endDateValue else none)

/-- Display string of one input field as computed in render (the
startDateString / endDateString locals): the raw state string while the
field is focused, the derived string otherwise. -/
def displayedString (cfg : Config) (ep : Endpoint) (s : State) : Option String :=
  match ep with
  | Endpoint.startEP =>
      if s.isStartDateInputFocused then s.startDateValueString
      else some (getDateStringForDisplay cfg s.startDateValue)
  | Endpoint.endEP =>
      if s.isEndDateInputFocused then s.endDateValueString
      else some (getDateStringForDisplay cfg s.endDateValue)

/-- Callbacks the component can emit to the embedder. In the source both
call sites are TODO comments, so no handler ever emits one. -/
inductive Callback where
  | onError (d : Moment)
  | onChange (r : Option Int × Option Int)
deriving DecidableEq, Repr

/-- DateRangeInput.handleGenericInputChange. The endpoint tag stands for
the (valueKey, valueStringKey) pair of the source. The TODO where
onChange would fire emits nothing. -/
def handleGenericInputChange (cfg : Config) (valueString : String) (ep : Endpoint) (s : State) : State :=
  let value := momentOfParse (cfg.mparse valueString)
  if valueString.length == 0 then
    setValue ep none (setValueString ep (some "") s)
  else if isValidMoment value && dateIsInRange cfg (some value) then
    if cfg.propsValue = none then
      setValue ep (some value) (setValueString ep (some valueString) s)
    else
      setValueString ep (some valueString) s
  else
    setValueString ep (some valueString) s

/-- DateRangeInput.handleGenericInputBlur. Note the out-of-sync
comparison reads this.state.startDateValue for either endpoint, exactly
as the source does. The three TODO branches where onError / onChange
would fire emit nothing, hence the empty callback list. -/
def handleGenericInputBlur (cfg : Config) (valueString : String) (ep : Endpoint) (s : State) :
    State × List Callback :=
  let value := momentOfParse (cfg.mparse valueString)
  let isValueInvalid := !(isValidMoment value)
  let isValueOutOfRange := !(dateIsInRange cfg (some value))
  let isValueStringOutOfSync := valueString != getDateStringForDisplay cfg s.startDateValue
  let isInputEmpty := valueString.length == 0
  let didInputChangeToInvalidState :=
    !isInputEmpty && isValueStringOutOfSync && (isValueInvalid || isValueOutOfRange)
  if isInputEmpty then
    (setFocused ep false (setValue ep (some Moment.nullMoment) (setValueString ep none s)), [])
  else if didInputChangeToInvalidState then
    if cfg.propsValue = none then
      (setFocused ep false (setValue ep (some value) (setValueString ep none s)), [])
    else
      (setFocused ep false s, [])
  else
    (setFocused ep false s, [])

/-- DateRangeInput.handleStartDateInputBlur: passes the stored raw
string of the start field. (Blur only follows focus, which seeds the
string, so the null fallback is never exercised.) -/
def handleStartDateInputBlur (cfg : Config) (s : State) : State × List Callback :=
  handleGenericInputBlur cfg (s.startDateValueString.getD "") Endpoint.startEP s

/-- DateRangeInput.handleEndDateInputBlur: passes the stored raw string
of the end field. -/
def handleEndDateInputBlur (cfg : Config) (s : State) : State × List Callback :=
  handleGenericInputBlur cfg (s.endDateValueString.getD "") Endpoint.endEP s

/-- DateRangeInput.handleGenericInputFocus: seeds the raw string from
the current value (empty when the value is null-like) and marks the
field focused, opening the popover when openOnFocus is set. -/
def handleGenericInputFocus (cfg : Config) (ep : Endpoint) (s : State) : State :=
  let value := getValue ep s
  let valueString := if isNull value then "" else optFormat cfg value
  if cfg.openOnFocus then
    { setFocused ep true (setValueString ep (some valueString) s) with isOpen := true }
  else
    setFocused ep true (setValueString ep (some valueString) s)

/-- DateRangeInput.handleDateRangeChange: the calendar-pick handler. The
truthiness test on a Date-or-null is Option.isSome. -/
def handleDateRangeChange (cfg : Config) (dateRange : Option Int × Option Int) (s : State) : State :=
  let startDate := dateRange.1
  let endDate := dateRange.2
  let startDateValue := fromDateToMoment startDate
  let endDateValue := fromDateToMoment endDate
  let startDateValueString := if startDate.isSome then momentFormat cfg startDateValue else ""
  let endDateValueString := if endDate.isSome then momentFormat cfg endDateValue else ""
  { s with startDateValue := some startDateValue,
           endDateValue := some endDateValue,
           startDateValueString := some startDateValueString,
           endDateValueString := some endDateValueString }

/-- Three-way classification of input text, as inlined in the branch
structure of handleGenericInputChange and handleGenericInputBlur: the
zero-length test decides Empty before any parsing, and a non-empty
string is Parsed or Invalid according to moment(text, format). -/
inductive ParsedDate where
  | Empty
  | Invalid
  | Parsed (day : Int)
deriving DecidableEq, Repr

def parse (cfg : Config) (text : String) : ParsedDate :=
  if text.length == 0 then ParsedDate.Empty
  else
    match cfg.mparse text with
    | some d => ParsedDate.Parsed d
    | none => ParsedDate.Invalid

/-- DateRangeInput.handleClosePopover. -/
def handleClosePopover (s : State) : State :=
  { s with isOpen := false }

/-
Concrete configurations and states used by witnesses and
counterexamples. cfgW is uncontrolled; its parse function recognises two
strings, one mapping to an in-range day and one to an out-of-range day.
-/

def cfgW : Config where
  minDate := 0
  maxDate := 100
  invalidDateMessage := "Invalid date"
  outOfRangeMessage := "Out of range"
  openOnFocus := true
  propsValue := none
  mparse := fun text =>
    if text = "2016-01-01" then some 10
    else if text = "2999-01-01" then some 999
    else none
  fmt := fun d => if d = 10 then "2016-01-01" else "other"

def cfgCtrl : Config :=
  { cfgW with propsValue := some (some 10, some 20) }

def stBlank : State where
  isOpen := false
  isStartDateInputFocused := false
  startDateValue := none
  startDateValueString := none
  isEndDateInputFocused := false
  endDateValue := none
  endDateValueString := none

def stFilled : State :=
  { stBlank with
      startDateValue := some (Moment.validMoment 10),
      endDateValue := some (Moment.validMoment 20),
      endDateValueString := some "bogus",
      isEndDateInputFocused := true }

/-
Helper lemmas about the derived display string and range checks.
-/

theorem validInRange_elim (cfg : Config) (v : Option Moment)
    (h : isDateValidAndInRange cfg v = true) :
    ∃ d, v = some (Moment.validMoment d) ∧ cfg.minDate ≤ d ∧ d ≤ cfg.maxDate := by
  match v with
  | none => simp [isDateValidAndInRange] at h
  | some Moment.nullMoment => simp [isDateValidAndInRange, isValidMoment] at h
  | some Moment.invalidMoment => simp [isDateValidAndInRange, isValidMoment] at h
  | some (Moment.validMoment d) =>
    simp [isDateValidAndInRange, isValidMoment, dateIsInRange] at h
    exact ⟨d, rfl, h.1, h.2⟩

theorem getDateStringForDisplay_null (cfg : Config) (v : Option Moment)
    (h : isNull v = true) : getDateStringForDisplay cfg v = "" := by
  simp [getDateStringForDisplay, h]

theorem getDateStringForDisplay_invalid (cfg : Config) :
    getDateStringForDisplay cfg (some Moment.invalidMoment) = cfg.invalidDateMessage := by
  simp [getDateStringForDisplay, isNull, optIsValid, isValidMoment]

theorem getDateStringForDisplay_outOfRange (cfg : Config) (d : Int)
    (h : dateIsInRange cfg (some (Moment.validMoment d)) = false) :
    getDateStringForDisplay cfg (some (Moment.validMoment d)) = cfg.outOfRangeMessage := by
  simp [getDateStringForDisplay, isNull, optIsValid, isValidMoment, h]

theorem getDateStringForDisplay_inRange (cfg : Config) (d : Int)
    (h : dateIsInRange cfg (some (Moment.validMoment d)) = true) :
    getDateStringForDisplay cfg (some (Moment.validMoment d)) = cfg.fmt d := by
  simp [getDateStringForDisplay, isNull, optIsValid, isValidMoment, h, optFormat, momentFormat]

/-- C10: each side of the range handed to the calendar picker is either
null or a valid day lying within the inclusive [minDate, maxDate]
bounds. -/
theorem getCurrentDateRange_validOrNull (cfg : Config) (s : State) :
    ((getCurrentDateRange cfg s).1 = none ∨
      ∃ d, (getCurrentDateRange cfg s).1 = some d ∧ cfg.minDate ≤ d ∧ d ≤ cfg.maxDate) ∧
    ((getCurrentDateRange cfg s).2 = none ∨
      ∃ d, (getCurrentDateRange cfg s).2 = some d ∧ cfg.minDate ≤ d ∧ d ≤ cfg.maxDate) := by
  constructor
  · by_cases h : isDateValidAndInRange cfg s.startDateValue = true
    · obtain ⟨d, hv, h1, h2⟩ := validInRange_elim cfg s.startDateValue h
      refine Or.inr ⟨d, ?_, h1, h2⟩
      simp only [getCurrentDateRange, h, if_true]
      simp [hv, fromMomentToDate]
    · exact Or.inl (by simp [getCurrentDateRange, h])
  · by_cases h : isDateValidAndInRange cfg s.endDateValue = true
    · obtain ⟨d, hv, h1, h2⟩ := validInRange_elim cfg s.endDateValue h
      refine Or.inr ⟨d, ?_, h1, h2⟩
      simp only [getCurrentDateRange, h, if_true]
      simp [hv, fromMomentToDate]
    · exact Or.inl (by simp [getCurrentDateRange, h])

/-- C8: the classification of input text is Empty exactly when the text
has zero length, and a non-empty text is always Parsed or Invalid. -/
theorem parse_Empty_iff (cfg : Config) (text : String) :
    (parse cfg text = ParsedDate.Empty ↔ text.length = 0) ∧
    (text.length ≠ 0 →
      parse cfg text = ParsedDate.Invalid ∨ ∃ d, parse cfg text = ParsedDate.Parsed d) := by
  constructor
  · constructor
    · intro h
      by_contra hne
      have h0 : (text.length == 0) = false := by simpa using hne
      simp only [parse, h0, if_false] at h
      cases hp : cfg.mparse text <;> simp [hp] at h
    · intro h
      simp [parse, h]
  · intro hne
    have h0 : (text.length == 0) = false := by simpa using hne
    cases hp : cfg.mparse text with
    | none => exact Or.inl (by simp [parse, h0, hp])
    | some d => exact Or.inr ⟨d, by simp [parse, h0, hp]⟩

/-- Witness for C8 at the concrete non-empty input "x". -/
theorem parse_Empty_iff_witness :
    ("x" : String).length ≠ 0 ∧
    (parse cfgW "x" = ParsedDate.Invalid ∨ ∃ d, parse cfgW "x" = ParsedDate.Parsed d) :=
  ⟨by decide, (parse_Empty_iff cfgW "x").2 (by decide)⟩

/-- C1: the displayed text of an endpoint is the raw state string while
the endpoint is focused, and otherwise a pure function of the stored
value and configuration: empty when the value is absent, the configured
invalidDateMessage when it is invalid, the configured outOfRangeMessage
when it is valid but outside [minDate, maxDate], and the value formatted
under the format pattern otherwise. -/
theorem displayedString_cases (cfg : Config) (ep : Endpoint) (s : State) :
    (isFocused ep s = true → displayedString cfg ep s = getValueString ep s) ∧
    (isFocused ep s = false →
      (isNull (getValue ep s) = true → displayedString cfg ep s = some "") ∧
      (getValue ep s = some Moment.invalidMoment →
        displayedString cfg ep s = some cfg.invalidDateMessage) ∧
      (∀ d, getValue ep s = some (Moment.validMoment d) →
        (dateIsInRange cfg (getValue ep s) = false →
          displayedString cfg ep s = some cfg.outOfRangeMessage) ∧
        (dateIsInRange cfg (getValue ep s) = true →
          displayedString cfg ep s = some (cfg.fmt d)))) := by
  have hshape : displayedString cfg ep s =
      (if isFocused ep s then getValueString ep s
       else some (getDateStringForDisplay cfg (getValue ep s))) := by
    cases ep <;> rfl
  constructor
  · intro hf
    simp [hshape, hf]
  · intro hf
    refine ⟨?_, ?_, ?_⟩
    · intro h
      simp [hshape, hf, getDateStringForDisplay_null cfg _ h]
    · intro h
      simp [hshape, hf, h, getDateStringForDisplay_invalid]
    · intro d h
      constructor
      · intro hr
        rw [h] at hr
        simp [hshape, hf, h, getDateStringForDisplay_outOfRange cfg d hr]
      · intro hr
        rw [h] at hr
        simp [hshape, hf, h, getDateStringForDisplay_inRange cfg d hr]

/-- Witness for C1: a non-focused endpoint with an absent value displays
the empty string. -/
theorem displayedString_cases_witness :
    isFocused Endpoint.startEP stBlank = false ∧
    isNull (getValue Endpoint.startEP stBlank) = true ∧
    displayedString cfgW Endpoint.startEP stBlank = some "" :=
  ⟨rfl, rfl, ((displayedString_cases cfgW Endpoint.startEP stBlank).2 rfl).1 rfl⟩

/-- C9: a calendar pick with range (d1, d2) overwrites both endpoint
values from the picked range, recomputes both raw strings from the new
values (formatted when present, empty when absent) in the one returned
state, and leaves the popover open flag unchanged. -/
theorem handleDateRangeChange_spec (cfg : Config) (d1 d2 : Option Int) (s : State) :
    (handleDateRangeChange cfg (d1, d2) s).startDateValue = some (fromDateToMoment d1) ∧
    (handleDateRangeChange cfg (d1, d2) s).endDateValue = some (fromDateToMoment d2) ∧
    (d1 = none → (handleDateRangeChange cfg (d1, d2) s).startDateValueString = some "") ∧
    (∀ d, d1 = some d →
      (handleDateRangeChange cfg (d1, d2) s).startDateValueString = some (cfg.fmt d)) ∧
    (d2 = none → (handleDateRangeChange cfg (d1, d2) s).endDateValueString = some "") ∧
    (∀ d, d2 = some d →
      (handleDateRangeChange cfg (d1, d2) s).endDateValueString = some (cfg.fmt d)) ∧
    (handleDateRangeChange cfg (d1, d2) s).isOpen = s.isOpen := by
  refine ⟨rfl, rfl, ?_, ?_, ?_, ?_, rfl⟩
  · intro h
    simp [handleDateRangeChange, h]
  · intro d h
    simp [handleDateRangeChange, h, fromDateToMoment, momentFormat]
  · intro h
    simp [handleDateRangeChange, h]
  · intro d h
    simp [handleDateRangeChange, h, fromDateToMoment, momentFormat]

/-- Witness for C9 at the concrete range (some 10, none). -/
theorem handleDateRangeChange_spec_witness :
    (handleDateRangeChange cfgW (some 10, none) stBlank).startDateValue =
      some (fromDateToMoment (some 10)) ∧
    (handleDateRangeChange cfgW (some 10, none) stBlank).startDateValueString =
      some (cfgW.fmt 10) ∧
    (handleDateRangeChange cfgW (some 10, none) stBlank).endDateValueString = some "" ∧
    (handleDateRangeChange cfgW (some 10, none) stBlank).isOpen = stBlank.isOpen :=
  ⟨(handleDateRangeChange_spec cfgW (some 10) none stBlank).1,
   (handleDateRangeChange_spec cfgW (some 10) none stBlank).2.2.2.1 10 rfl,
   (handleDateRangeChange_spec cfgW (some 10) none stBlank).2.2.2.2.1 rfl,
   (handleDateRangeChange_spec cfgW (some 10) none stBlank).2.2.2.2.2.2⟩

/-- C2: a text change with non-empty text either parses to an in-range
date, in which case the raw string becomes the literal input and, in
uncontrolled mode, the stored value becomes the parsed date on that very
event (in controlled mode only the raw string changes), or it does not,
in which case only the raw string changes and the stored value is left
unchanged. -/
theorem handleGenericInputChange_nonempty (cfg : Config) (vs : String) (ep : Endpoint)
    (s : State) (hne : vs.length ≠ 0) :
    ((isValidMoment (momentOfParse (cfg.mparse vs)) &&
        dateIsInRange cfg (some (momentOfParse (cfg.mparse vs)))) = true →
      (cfg.propsValue = none →
        handleGenericInputChange cfg vs ep s =
          setValue ep (some (momentOfParse (cfg.mparse vs))) (setValueString ep (some vs) s)) ∧
      (cfg.propsValue ≠ none →
        handleGenericInputChange cfg vs ep s = setValueString ep (some vs) s)) ∧
    ((isValidMoment (momentOfParse (cfg.mparse vs)) &&
        dateIsInRange cfg (some (momentOfParse (cfg.mparse vs)))) = false →
      handleGenericInputChange cfg vs ep s = setValueString ep (some vs) s ∧
      getValue ep (handleGenericInputChange cfg vs ep s) = getValue ep s) := by
  have h0 : (vs.length == 0) = false := by simpa using hne
  constructor
  · intro hvalid
    constructor
    · intro hunc
      simp [handleGenericInputChange, h0, hvalid, hunc]
    · intro hc
      simp [handleGenericInputChange, h0, hvalid, hc]
  · intro hbad
    have h1 : handleGenericInputChange cfg vs ep s = setValueString ep (some vs) s := by
      simp [handleGenericInputChange, h0, hbad]
    refine ⟨h1, ?_⟩
    rw [h1]
    cases ep <;> rfl

/-- Witness for C2: typing the parseable in-range string in uncontrolled
mode commits the parsed value and the literal raw string at once. -/
theorem handleGenericInputChange_nonempty_witness :
    ("2016-01-01" : String).length ≠ 0 ∧
    (isValidMoment (momentOfParse (cfgW.mparse "2016-01-01")) &&
      dateIsInRange cfgW (some (momentOfParse (cfgW.mparse "2016-01-01")))) = true ∧
    cfgW.propsValue = none ∧
    handleGenericInputChange cfgW "2016-01-01" Endpoint.startEP stBlank =
      setValue Endpoint.startEP (some (momentOfParse (cfgW.mparse "2016-01-01")))
        (setValueString Endpoint.startEP (some "2016-01-01") stBlank) :=
  ⟨by decide, by decide, rfl,
   ((handleGenericInputChange_nonempty cfgW "2016-01-01" Endpoint.startEP stBlank
      (by decide)).1 (by decide)).1 rfl⟩

/-- Counterexample to C4 as stated: in controlled mode, a text-change
event carrying the empty string does mutate the stored value of the
endpoint (the empty branch of handleGenericInputChange clears the value
without consulting the ownership mode). -/
theorem controlledEmptyChange_mutatesValue :
    cfgCtrl.propsValue ≠ none ∧
    stFilled.startDateValue = some (Moment.validMoment 10) ∧
    (handleGenericInputChange cfgCtrl "" Endpoint.startEP stFilled).startDateValue = none ∧
    (handleGenericInputChange cfgCtrl "" Endpoint.startEP stFilled).startDateValue ≠
      stFilled.startDateValue := by
  refine ⟨by decide, rfl, ?_, ?_⟩ <;> decide

/-- C4 as amended: in controlled mode a text-change event with non-empty
text never mutates the stored value, only the raw string; a text-change
to the empty string, however, clears the stored value to absent and
resets the raw string, in controlled mode as well. -/
theorem handleGenericInputChange_controlled (cfg : Config) (vs : String) (ep : Endpoint)
    (s : State) (hc : cfg.propsValue ≠ none) :
    (vs.length ≠ 0 →
      handleGenericInputChange cfg vs ep s = setValueString ep (some vs) s ∧
      getValue ep (handleGenericInputChange cfg vs ep s) = getValue ep s) ∧
    (vs.length = 0 →
      handleGenericInputChange cfg vs ep s =
        setValue ep none (setValueString ep (some "") s)) := by
  constructor
  · intro hne
    have h0 : (vs.length == 0) = false := by simpa using hne
    have h1 : handleGenericInputChange cfg vs ep s = setValueString ep (some vs) s := by
      by_cases hvalid : (isValidMoment (momentOfParse (cfg.mparse vs)) &&
          dateIsInRange cfg (some (momentOfParse (cfg.mparse vs)))) = true
      · simp [handleGenericInputChange, h0, hvalid, hc]
      · simp [handleGenericInputChange, h0, hvalid]
    refine ⟨h1, ?_⟩
    rw [h1]
    cases ep <;> rfl
  · intro h
    have h0 : (vs.length == 0) = true := by simpa using h
    simp [handleGenericInputChange, h0]

/-- Witness for the amended C4: in controlled mode a non-empty
unparseable string only changes the raw string. -/
theorem handleGenericInputChange_controlled_witness :
    cfgCtrl.propsValue ≠ none ∧
    ("bogus" : String).length ≠ 0 ∧
    handleGenericInputChange cfgCtrl "bogus" Endpoint.endEP stFilled =
      setValueString Endpoint.endEP (some "bogus") stFilled ∧
    getValue Endpoint.endEP (handleGenericInputChange cfgCtrl "bogus" Endpoint.endEP stFilled) =
      getValue Endpoint.endEP stFilled :=
  ⟨by decide, by decide,
   ((handleGenericInputChange_controlled cfgCtrl "bogus" Endpoint.endEP stFilled
      (by decide)).1 (by decide)).1,
   ((handleGenericInputChange_controlled cfgCtrl "bogus" Endpoint.endEP stFilled
      (by decide)).1 (by decide)).2⟩

/-- C7: blurring with empty text clears the stored value to a null-like
absent value, retires the raw string, clears the focus flag, and emits
no callback, with no dependence on the ownership mode. -/
theorem handleGenericInputBlur_empty (cfg : Config) (vs : String) (ep : Endpoint)
    (s : State) (h : vs.length = 0) :
    (handleGenericInputBlur cfg vs ep s).1 =
      setFocused ep false (setValue ep (some Moment.nullMoment) (setValueString ep none s)) ∧
    isNull (getValue ep (handleGenericInputBlur cfg vs ep s).1) = true ∧
    (handleGenericInputBlur cfg vs ep s).2 = [] := by
  have h0 : (vs.length == 0) = true := by simpa using h
  have h1 : (handleGenericInputBlur cfg vs ep s) =
      (setFocused ep false (setValue ep (some Moment.nullMoment) (setValueString ep none s)),
       []) := by
    simp [handleGenericInputBlur, h0]
  refine ⟨by rw [h1], ?_, by rw [h1]⟩
  rw [h1]
  cases ep <;> rfl

/-- Witness for C7: blurring the focused end field with empty text in
controlled mode clears its value and emits nothing. -/
theorem handleGenericInputBlur_empty_witness :
    ("" : String).length = 0 ∧
    isNull (getValue Endpoint.endEP (handleGenericInputBlur cfgCtrl "" Endpoint.endEP stFilled).1) = true ∧
    (handleGenericInputBlur cfgCtrl "" Endpoint.endEP stFilled).2 = [] :=
  ⟨rfl,
   (handleGenericInputBlur_empty cfgCtrl "" Endpoint.endEP stFilled rfl).2.1,
   (handleGenericInputBlur_empty cfgCtrl "" Endpoint.endEP stFilled rfl).2.2⟩

/-- C6: blurring with non-empty text that is out of sync with the
derived display string of the start value and is unparseable or out of
range commits, in uncontrolled mode, the parsed (possibly invalid) value
and clears the raw string, so that the subsequent unfocused display is
the configured invalid or out-of-range message; in controlled mode it
only clears the focus flag. -/
theorem handleGenericInputBlur_commitInvalid (cfg : Config) (vs : String) (ep : Endpoint)
    (s : State)
    (hne : vs.length ≠ 0)
    (hsync : vs ≠ getDateStringForDisplay cfg s.startDateValue)
    (hbad : isValidMoment (momentOfParse (cfg.mparse vs)) = false ∨
            dateIsInRange cfg (some (momentOfParse (cfg.mparse vs))) = false) :
    (cfg.propsValue = none →
      (handleGenericInputBlur cfg vs ep s).1 =
        setFocused ep false (setValue ep (some (momentOfParse (cfg.mparse vs)))
          (setValueString ep none s)) ∧
      (cfg.mparse vs = none →
        displayedString cfg ep (handleGenericInputBlur cfg vs ep s).1 =
          some cfg.invalidDateMessage) ∧
      (∀ d, cfg.mparse vs = some d →
        displayedString cfg ep (handleGenericInputBlur cfg vs ep s).1 =
          some cfg.outOfRangeMessage)) ∧
    (cfg.propsValue ≠ none →
      (handleGenericInputBlur cfg vs ep s).1 = setFocused ep false s) := by
  have h0 : (vs.length == 0) = false := by simpa using hne
  have hsync' : (vs != getDateStringForDisplay cfg s.startDateValue) = true :=
    bne_iff_ne.mpr hsync
  have hbad' : (!isValidMoment (momentOfParse (cfg.mparse vs)) ||
      !dateIsInRange cfg (some (momentOfParse (cfg.mparse vs)))) = true := by
    rcases hbad with h | h <;> simp [h]
  constructor
  · intro hunc
    have h1 : (handleGenericInputBlur cfg vs ep s).1 =
        setFocused ep false (setValue ep (some (momentOfParse (cfg.mparse vs)))
          (setValueString ep none s)) := by
      simp [handleGenericInputBlur, h0, hsync', hbad', hunc]
    refine ⟨h1, ?_, ?_⟩
    · intro hp
      rw [h1]
      cases ep <;>
        simp [displayedString, setFocused, setValue, setValueString, hp, momentOfParse,
          getDateStringForDisplay_invalid]
    · intro d hp
      have hv : isValidMoment (momentOfParse (cfg.mparse vs)) = true := by
        rw [hp]; rfl
      have hr : dateIsInRange cfg (some (momentOfParse (cfg.mparse vs))) = false := by
        rcases hbad with h | h
        · rw [hv] at h; cases h
        · exact h
      rw [hp] at hr
      rw [h1]
      cases ep <;>
        simp [displayedString, setFocused, setValue, setValueString, hp, momentOfParse,
          getDateStringForDisplay_outOfRange cfg d hr]
  · intro hc
    simp [handleGenericInputBlur, h0, hsync', hbad', hc]

/-- Witness for C6: in uncontrolled mode, blurring the start field on
the unparseable out-of-sync text "bogus" commits the invalid value and
the subsequent display is the invalid-date message. -/
theorem handleGenericInputBlur_commitInvalid_witness :
    ("bogus" : String).length ≠ 0 ∧
    "bogus" ≠ getDateStringForDisplay cfgW stFilled.startDateValue ∧
    (isValidMoment (momentOfParse (cfgW.mparse "bogus")) = false ∨
      dateIsInRange cfgW (some (momentOfParse (cfgW.mparse "bogus"))) = false) ∧
    cfgW.propsValue = none ∧
    cfgW.mparse "bogus" = none ∧
    displayedString cfgW Endpoint.startEP
      (handleGenericInputBlur cfgW "bogus" Endpoint.startEP stFilled).1 =
      some cfgW.invalidDateMessage :=
  ⟨by decide, by decide, by decide, rfl, by decide,
   ((handleGenericInputBlur_commitInvalid cfgW "bogus" Endpoint.startEP stFilled
      (by decide) (by decide) (by decide)).1 rfl).2.1 (by decide)⟩

/-- C3: when the end field blurs with non-empty text that is unparseable
or out of range, in uncontrolled mode, whether the end value is
committed is decided by comparing the end field text against the
display string derived from the start endpoint value: the value changes
exactly when the text differs from that start-derived string. -/
theorem handleEndDateInputBlur_comparesStartDisplay (cfg : Config) (s : State) (vs : String)
    (hvs : s.endDateValueString = some vs)
    (hne : vs.length ≠ 0)
    (hbad : isValidMoment (momentOfParse (cfg.mparse vs)) = false ∨
            dateIsInRange cfg (some (momentOfParse (cfg.mparse vs))) = false)
    (hunc : cfg.propsValue = none) :
    (handleEndDateInputBlur cfg s).1.endDateValue =
      (if vs = getDateStringForDisplay cfg s.startDateValue then s.endDateValue
       else some (momentOfParse (cfg.mparse vs))) := by
  have h0 : (vs.length == 0) = false := by simpa using hne
  have hbad' : (!isValidMoment (momentOfParse (cfg.mparse vs)) ||
      !dateIsInRange cfg (some (momentOfParse (cfg.mparse vs)))) = true := by
    rcases hbad with h | h <;> simp [h]
  have hw : handleEndDateInputBlur cfg s = handleGenericInputBlur cfg vs Endpoint.endEP s := by
    simp [handleEndDateInputBlur, hvs]
  rw [hw]
  by_cases heq : vs = getDateStringForDisplay cfg s.startDateValue
  · subst heq
    simp [handleGenericInputBlur, h0, setFocused]
  · have hsync1 : (vs != getDateStringForDisplay cfg s.startDateValue) = true :=
      bne_iff_ne.mpr heq
    simp [handleGenericInputBlur, h0, hsync1, hbad', hunc, heq, setFocused, setValue,
      setValueString]

/-- Witness for C3: the end field holds the text "bogus", which equals
no display string of its own value but differs from the display string
derived from the start value, and the blur commits the invalid value. -/
theorem handleEndDateInputBlur_comparesStartDisplay_witness :
    stFilled.endDateValueString = some "bogus" ∧
    ("bogus" : String).length ≠ 0 ∧
    (isValidMoment (momentOfParse (cfgW.mparse "bogus")) = false ∨
      dateIsInRange cfgW (some (momentOfParse (cfgW.mparse "bogus"))) = false) ∧
    cfgW.propsValue = none ∧
    (handleEndDateInputBlur cfgW stFilled).1.endDateValue =
      (if "bogus" = getDateStringForDisplay cfgW stFilled.startDateValue
       then stFilled.endDateValue
       else some (momentOfParse (cfgW.mparse "bogus"))) :=
  ⟨rfl, by decide, by decide, rfl,
   handleEndDateInputBlur_comparesStartDisplay cfgW stFilled "bogus" rfl (by decide)
     (by decide) rfl⟩

/-- C5 evaluated at a failing input: a blur of the focused start field
with the non-empty, out-of-sync, unparseable text "not-a-date" in
uncontrolled mode commits the invalid value but emits no callback at
all, because the onError call sites of the source are TODO stubs; the
claim and the documentation of the onError prop require exactly one
onError invocation here. -/
theorem blurUnparseable_emitsNoCallback :
    cfgW.propsValue = none ∧
    cfgW.mparse "not-a-date" = none ∧
    ("not-a-date" : String).length ≠ 0 ∧
    "not-a-date" ≠ getDateStringForDisplay cfgW stFilled.startDateValue ∧
    (handleGenericInputBlur cfgW "not-a-date" Endpoint.startEP stFilled).1.startDateValue =
      some Moment.invalidMoment ∧
    (handleGenericInputBlur cfgW "not-a-date" Endpoint.startEP stFilled).2 = [] := by
  refine ⟨rfl, by decide, by decide, by decide, by decide, by decide⟩
